import Mathlib

/-!
# Verification of the SolCex BD scoring and forensics engine

Shallow embedding of the decision core of `plugin-solcex-bd`:
the six factor scorers, the catalyst detector, the composite
aggregator (`scoreToken` / `getAction`), the wallet-forensics rule
engine (`generateFlags` / `analyzeWallet`), and the adjustment merger
(`applyWalletAdjustment`), all from `src/services/helius.ts`,
`src/services/dexscreener.ts`, `src/services/scoring.ts` and
`src/types/index.ts`.

Modelling conventions:
* JS `number` is modelled as `ℚ` (all values the engine handles are
  exact decimals; no float-rounding edge case is load-bearing here).
  Millisecond clock values (`Date.now()`) are `ℤ` parameters `nowMs`:
  every function that reads the wall clock in the source takes the
  clock as an explicit argument.
* `KNOWN_MIXERS` / `KNOWN_INSTITUTIONAL` are module-level `Set<string>`
  constants in the source (shipped empty, to be populated); the spec
  treats them as configuration supplied at construction, so they are
  explicit `List String` parameters here.
* Display-only strings rendered with locale formatting
  (`toLocaleString`, ISO timestamps) are abstracted: `fmtUsd` renders
  the plain rational, and timestamp fields hold the clock value.
  `Number.toFixed(d)` is modelled exactly by `ratToFixed` for the
  values that reach it. No claim depends on locale rendering.
-/

namespace SolcexBD

/-! ## Data model (src/types/index.ts) -/

structure TokenIdent where
  address : String
  name : String
  symbol : String
deriving Repr, DecidableEq

structure TxnCounts where
  buys : ℚ
  sells : ℚ
deriving Repr, DecidableEq

structure TxnBuckets where
  h24 : TxnCounts
  h6 : TxnCounts
  h1 : TxnCounts
  m5 : TxnCounts
deriving Repr, DecidableEq

structure VolumeBuckets where
  h24 : ℚ
  h6 : ℚ
  h1 : ℚ
  m5 : ℚ
deriving Repr, DecidableEq

structure PriceChangeBuckets where
  h24 : ℚ
  h6 : ℚ
  h1 : ℚ
  m5 : ℚ
deriving Repr, DecidableEq

structure WebsiteEntry where
  label : String
  url : String
deriving Repr, DecidableEq

structure SocialEntry where
  type : String
  url : String
deriving Repr, DecidableEq

structure PairExtra where
  imageUrl : Option String
  websites : Option (List WebsiteEntry)
  socials : Option (List SocialEntry)
deriving Repr, DecidableEq

structure LiquidityBuckets where
  usd : ℚ
  base : ℚ
  quote : ℚ
deriving Repr, DecidableEq

/-- The market snapshot of one trading pair (interface `DexPair`). -/
structure DexPair where
  chainId : String
  dexId : String
  url : String
  pairAddress : String
  baseToken : TokenIdent
  quoteToken : TokenIdent
  priceNative : String
  priceUsd : String
  txns : TxnBuckets
  volume : VolumeBuckets
  priceChange : PriceChangeBuckets
  liquidity : Option LiquidityBuckets
  fdv : Option ℚ
  marketCap : Option ℚ
  pairCreatedAt : Option ℤ
  info : Option PairExtra
deriving Repr, DecidableEq

structure ScoreBreakdown where
  category : String
  weight : ℤ
  score : ℤ
  maxScore : ℤ
  value : String
  details : String
deriving Repr, DecidableEq

structure CatalystAdjustment where
  name : String
  points : ℤ
  reason : String
deriving Repr, DecidableEq

inductive ScoreAction where
  | HOT
  | QUALIFIED
  | WATCH
  | SKIP
deriving Repr, DecidableEq

structure TokenScore where
  contractAddress : String
  chain : String
  tokenName : String
  tokenSymbol : String
  totalScore : ℤ
  maxScore : ℤ
  action : ScoreAction
  breakdown : List ScoreBreakdown
  catalysts : List CatalystAdjustment
  recommendation : String
  scoredAt : ℤ
  pairAddress : String
  pairUrl : String
deriving Repr, DecidableEq

inductive WalletFlag where
  | WALLET_VERIFIED
  | INSTITUTIONAL
  | NET_POSITIVE
  | SERIAL_CREATOR
  | DUMP_ALERT
  | MIXER_REJECT
  | UNKNOWN
deriving Repr, DecidableEq

/-- The string value of a `WalletFlag` (flags are string literals in TS). -/
def WalletFlag.text : WalletFlag → String
  | .WALLET_VERIFIED => "WALLET_VERIFIED"
  | .INSTITUTIONAL => "INSTITUTIONAL"
  | .NET_POSITIVE => "NET_POSITIVE"
  | .SERIAL_CREATOR => "SERIAL_CREATOR"
  | .DUMP_ALERT => "DUMP_ALERT"
  | .MIXER_REJECT => "MIXER_REJECT"
  | .UNKNOWN => "UNKNOWN"

structure WalletFlagDetail where
  flag : WalletFlag
  impact : ℤ
  reason : String
deriving Repr, DecidableEq

inductive RiskLevel where
  | LOW
  | MEDIUM
  | HIGH
  | CRITICAL
deriving Repr, DecidableEq

/-- One sampled transaction as returned by the Helius adapter:
`{ type, timestamp, description }` (timestamp in seconds). -/
structure HeliusTx where
  type : String
  timestamp : ℚ
  description : String
deriving Repr, DecidableEq

structure WalletForensicsResult where
  deployerAddress : String
  chain : String
  fundedBy : String
  nativeBalance : ℚ
  tokenCount : ℕ
  recentTransactions : ℕ
  flags : List WalletFlagDetail
  scoreAdjustment : ℤ
  riskLevel : RiskLevel
  analyzedAt : ℤ
  summary : String
deriving Repr, DecidableEq

/-! ## Formatting helpers -/

/-- Left-pad a digit string with zeros to width `d`. -/
def padZeros (d : ℕ) (s : String) : String :=
  String.mk (List.replicate (d - s.length) '0') ++ s

/-- Fixed-point rendering (`Number.toFixed(d)`) with `d` fractional
digits, rounding half away from zero (exact for the decimal values
that reach it in this program). -/
def ratToFixed (d : ℕ) (q : ℚ) : String :=
  let m : ℤ := (10 : ℤ) ^ d
  let n : ℤ := if q ≥ 0 then ⌊q * (m : ℚ) + 1/2⌋ else -⌊-q * (m : ℚ) + 1/2⌋
  let sign := if n < 0 then "-" else ""
  let a := n.natAbs
  if d = 0 then
    sign ++ toString a
  else
    sign ++ toString (a / 10 ^ d) ++ "." ++ padZeros d (toString (a % 10 ^ d))

/-- Display rendering of a USD amount (`toLocaleString` grouping
abstracted to the plain rational; presentation only). -/
def fmtUsd (q : ℚ) : String := "$" ++ toString q

/-- Substring test: `s.toLowerCase().includes(pat)` on lowercased `s`. -/
def strContains (s pat : String) : Bool :=
  s.toList.tails.any (fun t => pat.toList.isPrefixOf t)

/-! ## DexScreener helpers (src/services/dexscreener.ts) -/

/-- Days since pair creation, `-1` when unknown (`getTokenAgeDays`).
`if (!pair.pairCreatedAt) return -1` also treats a 0 timestamp as
missing (JS falsiness). `Math.floor((now - created) / 86400000)`. -/
def getTokenAgeDays (nowMs : ℤ) (pair : DexPair) : ℤ :=
  match pair.pairCreatedAt with
  | none => -1
  | some created =>
    if created = 0 then -1
    else ⌊((nowMs - created : ℤ) : ℚ) / 86400000⌋

/-- Websites plus social links, 0 when `info` absent (`countSocials`). -/
def countSocials (pair : DexPair) : ℕ :=
  ((pair.info.bind (·.websites)).getD []).length
    + ((pair.info.bind (·.socials)).getD []).length

/-! ## Weights (src/services/scoring.ts) -/

structure WeightConfig where
  liquidity : ℤ
  marketCap : ℤ
  volume24h : ℤ
  social : ℤ
  age : ℤ
  team : ℤ
deriving Repr, DecidableEq

def WEIGHTS : WeightConfig :=
  { liquidity := 25, marketCap := 20, volume24h := 20
    social := 15, age := 10, team := 10 }

/-! ## Factor scorers -/

/-- The liquidity metric: `pair.liquidity?.usd ?? 0`. -/
def liqUsd (pair : DexPair) : ℚ := (pair.liquidity.map (·.usd)).getD 0

def scoreLiquidity (pair : DexPair) : ScoreBreakdown :=
  let usd := liqUsd pair
  let sd : ℤ × String :=
    if usd ≥ 500000 then (25, "Excellent liquidity")
    else if usd ≥ 200000 then (20, "Good liquidity")
    else if usd ≥ 100000 then (15, "Acceptable liquidity")
    else if usd ≥ 50000 then (10, "Low liquidity — higher risk")
    else (5, "Very low liquidity — caution")
  { category := "Liquidity", weight := WEIGHTS.liquidity, score := sd.1
    maxScore := 25, value := fmtUsd usd, details := sd.2 }

/-- The market-cap metric: `pair.marketCap ?? pair.fdv ?? 0`. -/
def mcapVal (pair : DexPair) : ℚ :=
  ((pair.marketCap.orElse fun _ => pair.fdv)).getD 0

def scoreMarketCap (pair : DexPair) : ScoreBreakdown :=
  let mcap := mcapVal pair
  let sd : ℤ × String :=
    if mcap ≥ 10000000 then (20, "Strong market cap")
    else if mcap ≥ 1000000 then (16, "Good market cap")
    else if mcap ≥ 500000 then (12, "Acceptable market cap")
    else if mcap ≥ 100000 then (8, "Small cap — early stage")
    else (4, "Micro cap — high risk")
  { category := "Market Cap", weight := WEIGHTS.marketCap, score := sd.1
    maxScore := 20, value := fmtUsd mcap, details := sd.2 }

def scoreVolume (pair : DexPair) : ScoreBreakdown :=
  let vol := pair.volume.h24
  let sd : ℤ × String :=
    if vol ≥ 1000000 then (20, "Excellent volume")
    else if vol ≥ 500000 then (16, "Good volume")
    else if vol ≥ 100000 then (12, "Moderate volume")
    else if vol ≥ 50000 then (8, "Low volume")
    else (4, "Very low volume")
  { category := "Volume 24h", weight := WEIGHTS.volume24h, score := sd.1
    maxScore := 20, value := fmtUsd vol, details := sd.2 }

def scoreSocial (pair : DexPair) : ScoreBreakdown :=
  let platforms := countSocials pair
  let sd : ℤ × String :=
    if platforms ≥ 4 then (15, toString platforms ++ " platforms — strong presence")
    else if platforms ≥ 2 then (10, toString platforms ++ " platforms — moderate presence")
    else if platforms ≥ 1 then (6, toString platforms ++ " platform — minimal presence")
    else (2, "No social links found")
  { category := "Social", weight := WEIGHTS.social, score := sd.1
    maxScore := 15, value := toString platforms ++ " platforms", details := sd.2 }

def scoreAge (nowMs : ℤ) (pair : DexPair) : ScoreBreakdown :=
  let days := getTokenAgeDays nowMs pair
  let sd : ℤ × String :=
    if days > 180 then (10, toString days ++ " days — established")
    else if days > 30 then (8, toString days ++ " days — moderate history")
    else if days > 7 then (5, toString days ++ " days — new")
    else if days ≥ 0 then (3, toString days ++ " days — very new, higher risk")
    else (2, "Age unknown")
  { category := "Age", weight := WEIGHTS.age, score := sd.1
    maxScore := 10
    value := if days ≥ 0 then toString days ++ " days" else "Unknown"
    details := sd.2 }

def scoreTeam (pair : DexPair) : ScoreBreakdown :=
  let websites := ((pair.info.bind (·.websites)).getD []).length
  let socials := ((pair.info.bind (·.socials)).getD []).length
  let sd : ℤ × String :=
    if websites ≥ 1 ∧ socials ≥ 2 then (10, "Website + multiple socials — good transparency")
    else if websites ≥ 1 ∨ socials ≥ 2 then (7, "Some online presence")
    else if socials ≥ 1 then (4, "Minimal online presence")
    else (2, "No verifiable team info")
  { category := "Team Transparency", weight := WEIGHTS.team, score := sd.1
    maxScore := 10
    value := toString websites ++ " sites, " ++ toString socials ++ " socials"
    details := sd.2 }

/-! ## Catalyst detection -/

def detectCatalysts (pair : DexPair) : List CatalystAdjustment :=
  let vol24h := pair.volume.h24
  let vol6h := pair.volume.h6
  let priceChange := pair.priceChange.h24
  let buys24h := pair.txns.h24.buys
  let sells24h := pair.txns.h24.sells
  let socials := countSocials pair
  (if vol6h > 0 ∧ vol24h > 0 ∧ vol6h / vol24h > 1/2 then
    [{ name := "Volume Momentum", points := 5
       reason := "6h volume >50% of 24h — active momentum" }] else [])
  ++ (if buys24h > 0 ∧ sells24h > 0 ∧ buys24h / sells24h > 2 then
    [{ name := "Buy Pressure", points := 3
       reason := "Buy/sell ratio " ++ ratToFixed 1 (buys24h / sells24h) ++ "x" }] else [])
  ++ (if socials ≥ 4 then
    [{ name := "Multi-Platform Presence", points := 5
       reason := toString socials ++ " social platforms active" }] else [])
  ++ (if priceChange < -30 then
    [{ name := "Price Dump", points := -10
       reason := ratToFixed 1 priceChange ++ "% drop in 24h" }] else [])
  ++ (if buys24h > 0 ∧ sells24h > 0 ∧ sells24h / buys24h > 3 then
    [{ name := "Sell Pressure", points := -5
       reason := "Sell/buy ratio " ++ ratToFixed 1 (sells24h / buys24h) ++ "x — dump risk" }] else [])

/-! ## Composite aggregator -/

def getAction (score : ℤ) : ScoreAction :=
  if score ≥ 85 then .HOT
  else if score ≥ 70 then .QUALIFIED
  else if score ≥ 50 then .WATCH
  else .SKIP

def getRecommendation : ScoreAction → String
  | .HOT => "🔥 HOT — Immediate outreach + wallet forensics recommended"
  | .QUALIFIED => "✅ QUALIFIED — Priority queue, run wallet forensics"
  | .WATCH => "👀 WATCH — Monitor for 48 hours"
  | .SKIP => "⏭️ SKIP — Below threshold, log only"

/-- Main scorer `scoreToken`: six factor scores + catalyst adjustments, clamped to
[0,100]. `nowMs` is the `Date.now()` value observed by the call (the
age factor and the `scoredAt` timestamp both read the clock). -/
def scoreToken (nowMs : ℤ) (pair : DexPair) : TokenScore :=
  let breakdown : List ScoreBreakdown :=
    [scoreLiquidity pair, scoreMarketCap pair, scoreVolume pair,
     scoreSocial pair, scoreAge nowMs pair, scoreTeam pair]
  let baseScore := breakdown.foldl (fun sum b => sum + b.score) 0
  let catalysts := detectCatalysts pair
  let catalystTotal := catalysts.foldl (fun sum c => sum + c.points) 0
  let totalScore := max 0 (min 100 (baseScore + catalystTotal))
  let action := getAction totalScore
  { contractAddress := pair.baseToken.address
    chain := pair.chainId
    tokenName := pair.baseToken.name
    tokenSymbol := pair.baseToken.symbol
    totalScore := totalScore
    maxScore := 100
    action := action
    breakdown := breakdown
    catalysts := catalysts
    recommendation := getRecommendation action
    scoredAt := nowMs
    pairAddress := pair.pairAddress
    pairUrl := pair.url }

/-! ## Adjustment merger -/

/-- The catalyst entries appended for the wallet flags
(`adjusted.catalysts.push(...)` loop). -/
def walletCatalysts (walletResult : WalletForensicsResult) : List CatalystAdjustment :=
  walletResult.flags.map fun flag =>
    { name := "Wallet: " ++ flag.flag.text, points := flag.impact, reason := flag.reason }

/-- The value `applyWalletAdjustment` returns. -/
def applyWalletAdjustment (tokenScore : TokenScore)
    (walletResult : WalletForensicsResult) : TokenScore :=
  let adjustment := walletResult.scoreAdjustment
  let newCatalysts := tokenScore.catalysts ++ walletCatalysts walletResult
  let totalScore := max 0 (min 100 (tokenScore.totalScore + adjustment))
  let action := getAction totalScore
  let adjusted := { tokenScore with
    catalysts := newCatalysts
    totalScore := totalScore
    action := action
    recommendation := getRecommendation action }
  if walletResult.flags.any (fun f => f.flag = .MIXER_REJECT) then
    { adjusted with
      totalScore := 0
      action := .SKIP
      recommendation := "🚫 AUTO-REJECTED — Deployer funded via mixer/tornado" }
  else adjusted

/-- JS heap semantics of `applyWalletAdjustment` as observed by the
caller: `const adjusted = { ...tokenScore }` copies the `catalysts`
array by reference, so `adjusted.catalysts.push(...)` appends to the
array the input object still points to. Returns
(input object after the call, returned adjusted object). -/
def applyWalletAdjustmentWithCaller (tokenScore : TokenScore)
    (walletResult : WalletForensicsResult) : TokenScore × TokenScore :=
  let pushed := tokenScore.catalysts ++ walletCatalysts walletResult
  ({ tokenScore with catalysts := pushed },
   applyWalletAdjustment tokenScore walletResult)

/-! ## Wallet forensics rule engine (src/services/helius.ts) -/

structure DumpAnalysis where
  isDumping : Bool
  dumpPercent : ℚ
deriving Repr, DecidableEq

/-- Share of SWAP-"sold" transactions among the
trailing 7 days of the sample. `now = Date.now() / 1000` (seconds). -/
def analyzeDumpPattern (nowMs : ℤ) (transactions : List HeliusTx) : DumpAnalysis :=
  let now : ℚ := (nowMs : ℚ) / 1000
  let sevenDaysAgo : ℚ := now - 7 * 24 * 60 * 60
  let recentTxns := transactions.filter (fun tx => tx.timestamp > sevenDaysAgo)
  let sells := recentTxns.filter
    (fun tx => tx.type = "SWAP" ∧ strContains tx.description.toLower "sold")
  let dumpPercent : ℚ :=
    if recentTxns.length > 0 then ((sells.length : ℚ) / (recentTxns.length : ℚ)) * 100 else 0
  { isDumping := decide (dumpPercent > 50 ∧ sells.length ≥ 3)
    dumpPercent := dumpPercent }

/-- Count of transactions of type CREATE or whose
description mentions creation (case-insensitive). -/
def countTokenCreates (transactions : List HeliusTx) : ℕ :=
  (transactions.filter fun tx =>
    tx.type = "CREATE"
      ∨ strContains tx.description.toLower "created"
      ∨ strContains tx.description.toLower "initialize mint").length

/-- The ordered forensics rule chain (`generateFlags`). `mixers` and
`institutional` are the configured address sets (`KNOWN_MIXERS`,
`KNOWN_INSTITUTIONAL`). -/
def generateFlags (mixers institutional : List String)
    (address fundedBy : String) (nativeBalance : ℚ) (tokenCount : ℕ)
    (nowMs : ℤ) (transactions : List HeliusTx) : List WalletFlagDetail :=
  if mixers.contains fundedBy then
    [{ flag := .MIXER_REJECT, impact := -100
       reason := "Funded by known mixer: " ++ fundedBy.take 8 ++ "..." }]
  else
    let flags1 : List WalletFlagDetail :=
      if institutional.contains fundedBy ∨ institutional.contains address then
        [{ flag := .INSTITUTIONAL, impact := 8
           reason := "Linked to known institutional/VC wallet" }]
      else []
    let createCount := countTokenCreates transactions
    let flags2 := flags1 ++
      (if createCount > 5 then
        [{ flag := .SERIAL_CREATOR, impact := -5
           reason := "Created " ++ toString createCount ++ " tokens — serial creator pattern" }]
       else [])
    let dump := analyzeDumpPattern nowMs transactions
    let flags3 := flags2 ++
      (if dump.isDumping then
        [{ flag := .DUMP_ALERT
           impact := if dump.dumpPercent > 70 then -15 else -10
           reason := ratToFixed 0 dump.dumpPercent ++ "% sell transactions in last 7 days" }]
       else [])
    let flags4 := flags3 ++
      (if nativeBalance > 1 ∧ tokenCount > 0 ∧ dump.isDumping = false then
        [{ flag := .NET_POSITIVE, impact := 2
           reason := ratToFixed 2 nativeBalance ++ " SOL + " ++ toString tokenCount ++ " tokens held" }]
       else [])
    flags4 ++
      (if flags4 = [] ∨ flags4.all (fun f => f.impact ≥ 0) then
        [{ flag := .WALLET_VERIFIED, impact := 3
           reason := "No negative signals detected" }]
       else [])

/-- The pure core of `analyzeWallet`, after the three remote lookups
(balances, transactions, funding source) have been materialized. -/
def analyzeWalletCore (mixers institutional : List String)
    (deployerAddress fundedBy : String) (nativeBalance : ℚ) (tokenCount : ℕ)
    (nowMs : ℤ) (transactions : List HeliusTx) : WalletForensicsResult :=
  let flags := generateFlags mixers institutional deployerAddress fundedBy
    nativeBalance tokenCount nowMs transactions
  let scoreAdjustment := flags.foldl (fun sum f => sum + f.impact) 0
  let riskLevel : RiskLevel :=
    if flags.any (fun f => f.flag = .MIXER_REJECT) then .CRITICAL
    else if flags.any (fun f => f.flag = .DUMP_ALERT ∧ f.impact ≤ -15) then .HIGH
    else if flags.any (fun f => f.impact < 0) then .MEDIUM
    else .LOW
  let flagNames := String.intercalate ", " (flags.map (fun f => f.flag.text))
  let summary :=
    match riskLevel with
    | .CRITICAL => "⛔ CRITICAL: Mixer-funded deployer. AUTO-REJECT."
    | .HIGH => "⚠️ HIGH RISK: " ++ flagNames ++ ". Manual review required."
    | .MEDIUM => "⚡ MEDIUM RISK: " ++ flagNames ++ ". Proceed with caution."
    | .LOW => "✅ LOW RISK: " ++ flagNames ++ ". Wallet appears clean."
  { deployerAddress := deployerAddress
    chain := "solana"
    fundedBy := fundedBy
    nativeBalance := nativeBalance
    tokenCount := tokenCount
    recentTransactions := transactions.length
    flags := flags
    scoreAdjustment := scoreAdjustment
    riskLevel := riskLevel
    analyzedAt := nowMs
    summary := summary }

/-! ## General lemmas about the embedded functions -/

theorem foldl_add_score (l : List ScoreBreakdown) (n : ℤ) :
    l.foldl (fun sum b => sum + b.score) n = n + (l.map (·.score)).sum := by
  induction l generalizing n with
  | nil => simp
  | cons x xs ih => simp only [List.foldl_cons, List.map_cons, List.sum_cons, ih]; ring

theorem foldl_add_points (l : List CatalystAdjustment) (n : ℤ) :
    l.foldl (fun sum c => sum + c.points) n = n + (l.map (·.points)).sum := by
  induction l generalizing n with
  | nil => simp
  | cons x xs ih => simp only [List.foldl_cons, List.map_cons, List.sum_cons, ih]; ring

theorem foldl_add_impact (l : List WalletFlagDetail) (n : ℤ) :
    l.foldl (fun sum f => sum + f.impact) n = n + (l.map (·.impact)).sum := by
  induction l generalizing n with
  | nil => simp
  | cons x xs ih => simp only [List.foldl_cons, List.map_cons, List.sum_cons, ih]; ring

theorem getAction_HOT_iff (s : ℤ) : getAction s = .HOT ↔ 85 ≤ s := by
  unfold getAction; split_ifs <;> simp_all <;> omega

theorem getAction_QUALIFIED_iff (s : ℤ) : getAction s = .QUALIFIED ↔ 70 ≤ s ∧ s < 85 := by
  unfold getAction; split_ifs <;> simp_all <;> omega

theorem getAction_WATCH_iff (s : ℤ) : getAction s = .WATCH ↔ 50 ≤ s ∧ s < 70 := by
  unfold getAction; split_ifs <;> simp_all <;> omega

theorem getAction_SKIP_iff (s : ℤ) : getAction s = .SKIP ↔ s < 50 := by
  unfold getAction; split_ifs <;> simp_all <;> omega

/-! ## Concrete fixtures (used by witnesses and counterexamples) -/

def sampleIdent : TokenIdent := ⟨"TOKEN_ADDRESS", "Token", "TKN"⟩

def emptyTxns : TxnBuckets := ⟨⟨0, 0⟩, ⟨0, 0⟩, ⟨0, 0⟩, ⟨0, 0⟩⟩

def zeroPair : DexPair :=
  ⟨"solana", "raydium", "https://dexscreener.example/p", "PAIRADDR",
   sampleIdent, sampleIdent, "0", "0", emptyTxns, ⟨0, 0, 0, 0⟩, ⟨0, 0, 0, 0⟩,
   none, none, none, none, none⟩

def richExtra : PairExtra :=
  ⟨none, some [⟨"Website", "https://w.example"⟩],
   some [⟨"twitter", "https://x.example"⟩, ⟨"telegram", "https://t.example"⟩,
         ⟨"discord", "https://d.example"⟩, ⟨"youtube", "https://y.example"⟩]⟩

def dayMs : ℤ := 86400000

/-- Scenario-B-like snapshot: every factor at its top tier. -/
def richPair : DexPair :=
  { zeroPair with
    volume := ⟨1200000, 0, 0, 0⟩
    txns := ⟨⟨100, 10⟩, ⟨0, 0⟩, ⟨0, 0⟩, ⟨0, 0⟩⟩
    liquidity := some ⟨600000, 0, 0⟩
    marketCap := some 12000000
    pairCreatedAt := some dayMs
    info := some richExtra }

/-- Clock for which `richPair` is 200 days old. -/
def nowB : ℤ := dayMs + 200 * dayMs

/-- A fully scored token with a maximal base score and positive catalysts. -/
def hotScore : TokenScore := scoreToken nowB richPair

/-! ## C1: mixer funding forces auto-rejection -/

/-- C1: when the funding source is in the configured mixer set, the
forensics engine emits exactly the one flag MIXER_REJECT with impact
-100, the result has scoreAdjustment -100 and riskLevel CRITICAL, and
merging it with any TokenScore yields totalScore 0, action SKIP and
the fixed auto-rejection recommendation. -/
theorem mixer_reject_auto_skip
    (mixers institutional : List String) (address fundedBy : String)
    (nativeBalance : ℚ) (tokenCount : ℕ) (nowMs : ℤ) (txs : List HeliusTx)
    (ts : TokenScore)
    (h : mixers.contains fundedBy = true) :
    (analyzeWalletCore mixers institutional address fundedBy nativeBalance
        tokenCount nowMs txs).flags =
      [{ flag := .MIXER_REJECT, impact := -100
         reason := "Funded by known mixer: " ++ fundedBy.take 8 ++ "..." }]
    ∧ (analyzeWalletCore mixers institutional address fundedBy nativeBalance
        tokenCount nowMs txs).scoreAdjustment = -100
    ∧ (analyzeWalletCore mixers institutional address fundedBy nativeBalance
        tokenCount nowMs txs).riskLevel = .CRITICAL
    ∧ (applyWalletAdjustment ts (analyzeWalletCore mixers institutional address
        fundedBy nativeBalance tokenCount nowMs txs)).totalScore = 0
    ∧ (applyWalletAdjustment ts (analyzeWalletCore mixers institutional address
        fundedBy nativeBalance tokenCount nowMs txs)).action = .SKIP
    ∧ (applyWalletAdjustment ts (analyzeWalletCore mixers institutional address
        fundedBy nativeBalance tokenCount nowMs txs)).recommendation =
        "🚫 AUTO-REJECTED — Deployer funded via mixer/tornado" := by
  have hflags : generateFlags mixers institutional address fundedBy nativeBalance
      tokenCount nowMs txs =
      [{ flag := .MIXER_REJECT, impact := -100
         reason := "Funded by known mixer: " ++ fundedBy.take 8 ++ "..." }] := by
    simp only [generateFlags, h]; simp
  refine ⟨?_, ?_, ?_, ?_, ?_, ?_⟩ <;>
    simp [analyzeWalletCore, applyWalletAdjustment, hflags]

/-- Spot check of `mixer_reject_auto_skip` on a concrete mixer-funded
wallet merged into a maximal HOT score. -/
theorem mixer_reject_auto_skip_spot :
    (analyzeWalletCore ["MIXERADDRESS"] [] "DEPLOYER" "MIXERADDRESS" 50 9 0 []).scoreAdjustment = -100
    ∧ (analyzeWalletCore ["MIXERADDRESS"] [] "DEPLOYER" "MIXERADDRESS" 50 9 0 []).riskLevel = .CRITICAL
    ∧ (applyWalletAdjustment hotScore (analyzeWalletCore ["MIXERADDRESS"] []
        "DEPLOYER" "MIXERADDRESS" 50 9 0 [])).totalScore = 0
    ∧ (applyWalletAdjustment hotScore (analyzeWalletCore ["MIXERADDRESS"] []
        "DEPLOYER" "MIXERADDRESS" 50 9 0 [])).action = .SKIP := by
  have h := mixer_reject_auto_skip ["MIXERADDRESS"] [] "DEPLOYER" "MIXERADDRESS"
    50 9 0 [] hotScore (by rfl)
  exact ⟨h.2.1, h.2.2.1, h.2.2.2.1, h.2.2.2.2.1⟩

/-! ## C2: composite aggregation and action thresholds -/

/-- C2: totalScore is the sum of the six factor scores plus the sum of
catalyst deltas, clamped to [0,100]; the action is derived from the
clamped total by the HOT ≥85 / QUALIFIED ≥70 / WATCH ≥50 / else SKIP
ladder; totalScore always lies in [0,100] and the six configured
weights sum to 100. -/
theorem scoreToken_totalScore_eq (nowMs : ℤ) (pair : DexPair) :
    (scoreToken nowMs pair).totalScore =
      max 0 (min 100
        ((scoreLiquidity pair).score + (scoreMarketCap pair).score
          + (scoreVolume pair).score + (scoreSocial pair).score
          + (scoreAge nowMs pair).score + (scoreTeam pair).score
          + ((detectCatalysts pair).map (·.points)).sum)) := by
  simp only [scoreToken, List.foldl_cons, List.foldl_nil, foldl_add_points]
  ring_nf

theorem scoreToken_total_and_action (nowMs : ℤ) (pair : DexPair) :
    (scoreToken nowMs pair).totalScore =
      max 0 (min 100
        ((scoreLiquidity pair).score + (scoreMarketCap pair).score
          + (scoreVolume pair).score + (scoreSocial pair).score
          + (scoreAge nowMs pair).score + (scoreTeam pair).score
          + ((detectCatalysts pair).map (·.points)).sum))
    ∧ 0 ≤ (scoreToken nowMs pair).totalScore
    ∧ (scoreToken nowMs pair).totalScore ≤ 100
    ∧ ((scoreToken nowMs pair).action = .HOT ↔ 85 ≤ (scoreToken nowMs pair).totalScore)
    ∧ ((scoreToken nowMs pair).action = .QUALIFIED ↔
        70 ≤ (scoreToken nowMs pair).totalScore ∧ (scoreToken nowMs pair).totalScore < 85)
    ∧ ((scoreToken nowMs pair).action = .WATCH ↔
        50 ≤ (scoreToken nowMs pair).totalScore ∧ (scoreToken nowMs pair).totalScore < 70)
    ∧ ((scoreToken nowMs pair).action = .SKIP ↔ (scoreToken nowMs pair).totalScore < 50)
    ∧ WEIGHTS.liquidity + WEIGHTS.marketCap + WEIGHTS.volume24h
        + WEIGHTS.social + WEIGHTS.age + WEIGHTS.team = 100
    ∧ ((scoreToken nowMs pair).breakdown.map (·.weight)).sum = 100 := by
  have htot := scoreToken_totalScore_eq nowMs pair
  have hact : (scoreToken nowMs pair).action =
      getAction (scoreToken nowMs pair).totalScore := rfl
  refine ⟨htot, ?_, ?_, ?_, ?_, ?_, ?_, by decide, ?_⟩
  · rw [htot]; omega
  · rw [htot]; omega
  · rw [hact]; exact getAction_HOT_iff _
  · rw [hact]; exact getAction_QUALIFIED_iff _
  · rw [hact]; exact getAction_WATCH_iff _
  · rw [hact]; exact getAction_SKIP_iff _
  · simp [scoreToken, scoreLiquidity, scoreMarketCap, scoreVolume, scoreSocial,
      scoreAge, scoreTeam, WEIGHTS]

/-! ## C3: per-factor bounds and the liquidity boundary -/

def liqBoundaryPair : DexPair := { zeroPair with liquidity := some ⟨500000, 0, 0⟩ }

def liqBelowPair : DexPair := { zeroPair with liquidity := some ⟨499999.99, 0, 0⟩ }

/-- C3: every factor's awarded score is at most its maxScore, which
equals its weight; and the liquidity factor awards 25 at exactly
500000.00 USD and 20 at 499999.99 USD (tier table ≥500k→25,
≥200k→20, ≥100k→15, ≥50k→10, else→5). -/
theorem factor_scores_bounded (nowMs : ℤ) (pair : DexPair) :
    (∀ b ∈ (scoreToken nowMs pair).breakdown, b.score ≤ b.maxScore ∧ b.maxScore = b.weight)
    ∧ (liqUsd pair = 500000 → (scoreLiquidity pair).score = 25)
    ∧ (liqUsd pair = 499999.99 → (scoreLiquidity pair).score = 20) := by
  refine ⟨?_, ?_, ?_⟩
  · intro b hb
    simp only [scoreToken, List.mem_cons, List.not_mem_nil, or_false] at hb
    rcases hb with h | h | h | h | h | h
    · subst h
      exact ⟨by simp only [scoreLiquidity]; split_ifs <;> norm_num, rfl⟩
    · subst h
      exact ⟨by simp only [scoreMarketCap]; split_ifs <;> norm_num, rfl⟩
    · subst h
      exact ⟨by simp only [scoreVolume]; split_ifs <;> norm_num, rfl⟩
    · subst h
      exact ⟨by simp only [scoreSocial]; split_ifs <;> norm_num, rfl⟩
    · subst h
      exact ⟨by simp only [scoreAge]; split_ifs <;> norm_num, rfl⟩
    · subst h
      exact ⟨by simp only [scoreTeam]; split_ifs <;> norm_num, rfl⟩
  · intro h
    simp only [scoreLiquidity, h]
    norm_num
  · intro h
    simp only [scoreLiquidity, h]
    norm_num

/-- Spot check of `factor_scores_bounded` at the two liquidity
boundary snapshots and on the zero snapshot's liquidity entry. -/
theorem factor_scores_bounded_spot :
    (scoreLiquidity liqBoundaryPair).score = 25
    ∧ (scoreLiquidity liqBelowPair).score = 20
    ∧ ((scoreLiquidity zeroPair).score ≤ (scoreLiquidity zeroPair).maxScore
        ∧ (scoreLiquidity zeroPair).maxScore = (scoreLiquidity zeroPair).weight) :=
  ⟨(factor_scores_bounded 0 liqBoundaryPair).2.1 rfl,
   (factor_scores_bounded 0 liqBelowPair).2.2 rfl,
   (factor_scores_bounded 0 zeroPair).1 (scoreLiquidity zeroPair)
     (by simp [scoreToken])⟩

/-! ## C5: catalyst division guards -/

theorem mem_ite_nil {α : Type} {p : Prop} [Decidable p] {a : α} {l : List α} :
    a ∈ (if p then l else []) ↔ p ∧ a ∈ l := by
  split_ifs with h <;> simp [h]

/-- Characterization of which catalyst entries `detectCatalysts` can
emit, with the exact guard of each rule. -/
theorem detectCatalysts_mem (pair : DexPair) (c : CatalystAdjustment) :
    c ∈ detectCatalysts pair ↔
      ((pair.volume.h6 > 0 ∧ pair.volume.h24 > 0 ∧ pair.volume.h6 / pair.volume.h24 > 1/2)
        ∧ c = { name := "Volume Momentum", points := 5
                reason := "6h volume >50% of 24h — active momentum" })
      ∨ ((pair.txns.h24.buys > 0 ∧ pair.txns.h24.sells > 0
            ∧ pair.txns.h24.buys / pair.txns.h24.sells > 2)
        ∧ c = { name := "Buy Pressure", points := 3
                reason := "Buy/sell ratio "
                  ++ ratToFixed 1 (pair.txns.h24.buys / pair.txns.h24.sells) ++ "x" })
      ∨ (countSocials pair ≥ 4
        ∧ c = { name := "Multi-Platform Presence", points := 5
                reason := toString (countSocials pair) ++ " social platforms active" })
      ∨ (pair.priceChange.h24 < -30
        ∧ c = { name := "Price Dump", points := -10
                reason := ratToFixed 1 pair.priceChange.h24 ++ "% drop in 24h" })
      ∨ ((pair.txns.h24.buys > 0 ∧ pair.txns.h24.sells > 0
            ∧ pair.txns.h24.sells / pair.txns.h24.buys > 3)
        ∧ c = { name := "Sell Pressure", points := -5
                reason := "Sell/buy ratio "
                  ++ ratToFixed 1 (pair.txns.h24.sells / pair.txns.h24.buys) ++ "x — dump risk" }) := by
  simp only [detectCatalysts, List.mem_append, mem_ite_nil, List.mem_singleton, or_assoc]

/-- C5: each ratio catalyst fires only when both operands are strictly
positive; in particular a zero denominator (24h volume for Volume
Momentum, sells for Buy Pressure, buys for Sell Pressure) prevents
the rule from firing, and the quotient is never formed with a zero
denominator. -/
theorem catalyst_guards (pair : DexPair) :
    (pair.volume.h24 = 0 →
      "Volume Momentum" ∉ (detectCatalysts pair).map (·.name))
    ∧ (pair.txns.h24.sells = 0 →
      "Buy Pressure" ∉ (detectCatalysts pair).map (·.name))
    ∧ (pair.txns.h24.buys = 0 →
      "Sell Pressure" ∉ (detectCatalysts pair).map (·.name))
    ∧ ("Volume Momentum" ∈ (detectCatalysts pair).map (·.name) →
      pair.volume.h6 > 0 ∧ pair.volume.h24 > 0)
    ∧ ("Buy Pressure" ∈ (detectCatalysts pair).map (·.name) →
      pair.txns.h24.buys > 0 ∧ pair.txns.h24.sells > 0)
    ∧ ("Sell Pressure" ∈ (detectCatalysts pair).map (·.name) →
      pair.txns.h24.buys > 0 ∧ pair.txns.h24.sells > 0) := by
  have hmem : ∀ nm : String, nm ∈ (detectCatalysts pair).map (·.name) ↔
      ∃ c ∈ detectCatalysts pair, c.name = nm := by
    intro nm
    simp only [List.mem_map]
  refine ⟨?_, ?_, ?_, ?_, ?_, ?_⟩
  · intro h0 hmem0
    rcases (hmem _).1 hmem0 with ⟨c, hc, hname⟩
    rcases (detectCatalysts_mem pair c).1 hc with
      ⟨⟨_, hpos, _⟩, rfl⟩ | ⟨_, rfl⟩ | ⟨_, rfl⟩ | ⟨_, rfl⟩ | ⟨_, rfl⟩ <;>
      simp_all
  · intro h0 hmem0
    rcases (hmem _).1 hmem0 with ⟨c, hc, hname⟩
    rcases (detectCatalysts_mem pair c).1 hc with
      ⟨_, rfl⟩ | ⟨⟨_, hpos, _⟩, rfl⟩ | ⟨_, rfl⟩ | ⟨_, rfl⟩ | ⟨_, rfl⟩ <;>
      simp_all
  · intro h0 hmem0
    rcases (hmem _).1 hmem0 with ⟨c, hc, hname⟩
    rcases (detectCatalysts_mem pair c).1 hc with
      ⟨_, rfl⟩ | ⟨_, rfl⟩ | ⟨_, rfl⟩ | ⟨_, rfl⟩ | ⟨⟨hpos, _, _⟩, rfl⟩ <;>
      simp_all
  · intro hmem0
    rcases (hmem _).1 hmem0 with ⟨c, hc, hname⟩
    rcases (detectCatalysts_mem pair c).1 hc with
      ⟨⟨h1, h2, _⟩, rfl⟩ | ⟨_, rfl⟩ | ⟨_, rfl⟩ | ⟨_, rfl⟩ | ⟨_, rfl⟩ <;>
      simp_all
  · intro hmem0
    rcases (hmem _).1 hmem0 with ⟨c, hc, hname⟩
    rcases (detectCatalysts_mem pair c).1 hc with
      ⟨_, rfl⟩ | ⟨⟨h1, h2, _⟩, rfl⟩ | ⟨_, rfl⟩ | ⟨_, rfl⟩ | ⟨_, rfl⟩ <;>
      simp_all
  · intro hmem0
    rcases (hmem _).1 hmem0 with ⟨c, hc, hname⟩
    rcases (detectCatalysts_mem pair c).1 hc with
      ⟨_, rfl⟩ | ⟨_, rfl⟩ | ⟨_, rfl⟩ | ⟨_, rfl⟩ | ⟨⟨h1, h2, _⟩, rfl⟩ <;>
      simp_all

/-- Spot check of `catalyst_guards` on the all-zero snapshot: no ratio
rule fires when every denominator is 0. -/
theorem catalyst_guards_spot :
    "Volume Momentum" ∉ (detectCatalysts zeroPair).map (·.name)
    ∧ "Buy Pressure" ∉ (detectCatalysts zeroPair).map (·.name)
    ∧ "Sell Pressure" ∉ (detectCatalysts zeroPair).map (·.name) :=
  ⟨(catalyst_guards zeroPair).1 rfl,
   (catalyst_guards zeroPair).2.1 rfl,
   (catalyst_guards zeroPair).2.2.1 rfl⟩

/-! ## C4: Scenario D — serial creator with net-positive balance -/

theorem ratToFixed_two_five : ratToFixed 2 (5 : ℚ) = "5.00" := by
  have h : ⌊(5 : ℚ) * (((10 : ℤ) ^ 2 : ℤ) : ℚ) + 1/2⌋ = 500 := by norm_num
  simp only [ratToFixed, h]
  norm_num
  decide

/-- C4: a wallet whose sample counts 8 token creations, with no dump
pattern, balance 5 SOL and 2 tokens held, funded by an address in
neither configured set (and itself not institutional), yields exactly
[SERIAL_CREATOR(-5) with the count in the rationale,
NET_POSITIVE(+2)], scoreAdjustment -3 and riskLevel MEDIUM, with no
WALLET_VERIFIED flag. -/
theorem scenarioD_serial_creator
    (mixers institutional : List String) (address fundedBy : String)
    (nowMs : ℤ) (txs : List HeliusTx)
    (h1 : mixers.contains fundedBy = false)
    (h2 : institutional.contains fundedBy = false)
    (h3 : institutional.contains address = false)
    (h4 : countTokenCreates txs = 8)
    (h5 : (analyzeDumpPattern nowMs txs).isDumping = false) :
    (analyzeWalletCore mixers institutional address fundedBy 5 2 nowMs txs).flags =
      [{ flag := .SERIAL_CREATOR, impact := -5
         reason := "Created 8 tokens — serial creator pattern" },
       { flag := .NET_POSITIVE, impact := 2
         reason := "5.00 SOL + 2 tokens held" }]
    ∧ (analyzeWalletCore mixers institutional address fundedBy 5 2 nowMs txs).scoreAdjustment = -3
    ∧ (analyzeWalletCore mixers institutional address fundedBy 5 2 nowMs txs).riskLevel = .MEDIUM := by
  have hflags : generateFlags mixers institutional address fundedBy 5 2 nowMs txs =
      [{ flag := .SERIAL_CREATOR, impact := -5
         reason := "Created 8 tokens — serial creator pattern" },
       { flag := .NET_POSITIVE, impact := 2
         reason := "5.00 SOL + 2 tokens held" }] := by
    simp only [generateFlags, h1, h2, h3, h4, h5, ratToFixed_two_five]
    norm_num
    decide
  refine ⟨?_, ?_, ?_⟩ <;> simp [analyzeWalletCore, hflags]

/-- Spot check of `scenarioD_serial_creator`: 8 CREATE transactions,
empty configured sets. -/
theorem scenarioD_serial_creator_spot :
    (analyzeWalletCore [] [] "DEPLOYER" "FUNDER" 5 2 1000000000000
        (List.replicate 8 ⟨"CREATE", 0, ""⟩)).scoreAdjustment = -3
    ∧ (analyzeWalletCore [] [] "DEPLOYER" "FUNDER" 5 2 1000000000000
        (List.replicate 8 ⟨"CREATE", 0, ""⟩)).riskLevel = .MEDIUM := by
  have hX : ((1000000000000 : ℤ) : ℚ) / 1000 - 7 * 24 * 60 * 60 = 999395200 := by
    norm_num
  have hdump : (analyzeDumpPattern 1000000000000
      (List.replicate 8 (⟨"CREATE", 0, ""⟩ : HeliusTx))).isDumping = false := by
    simp only [analyzeDumpPattern, hX]
    decide
  have h := scenarioD_serial_creator [] [] "DEPLOYER" "FUNDER" 1000000000000
    (List.replicate 8 ⟨"CREATE", 0, ""⟩) rfl rfl rfl (by decide) hdump
  exact ⟨h.2.1, h.2.2⟩

/-! ## C6: the merger mutates its input through the shared array -/

def cleanWalletResult : WalletForensicsResult :=
  { deployerAddress := "DEPLOYER", chain := "solana", fundedBy := "FUNDER"
    nativeBalance := 50, tokenCount := 9, recentTransactions := 0
    flags := [{ flag := .WALLET_VERIFIED, impact := 3
                reason := "No negative signals detected" }]
    scoreAdjustment := 3, riskLevel := .LOW, analyzedAt := 0
    summary := "✅ LOW RISK: WALLET_VERIFIED. Wallet appears clean." }

def baseScoreFixture : TokenScore :=
  { contractAddress := "TOKEN_ADDRESS", chain := "solana"
    tokenName := "Token", tokenSymbol := "TKN"
    totalScore := 80, maxScore := 100, action := .QUALIFIED
    breakdown := []
    catalysts := [{ name := "Multi-Platform Presence", points := 5
                    reason := "4 social platforms active" }]
    recommendation := "✅ QUALIFIED — Priority queue, run wallet forensics"
    scoredAt := 0, pairAddress := "PAIRADDR", pairUrl := "https://u" }

/-- C6: `applyWalletAdjustment` does NOT leave its input unchanged:
`const adjusted = { ...tokenScore }` copies the `catalysts` array by
reference, and `adjusted.catalysts.push(...)` appends the wallet-flag
entries to the array the caller's TokenScore still holds, so after
the call the input's catalysts list has gained the wallet entries. -/
theorem applyWalletAdjustment_mutates_caller :
    (applyWalletAdjustmentWithCaller baseScoreFixture cleanWalletResult).1.catalysts
      ≠ baseScoreFixture.catalysts
    ∧ (applyWalletAdjustmentWithCaller baseScoreFixture cleanWalletResult).1.catalysts
      = baseScoreFixture.catalysts ++ walletCatalysts cleanWalletResult := by
  exact ⟨by decide, rfl⟩

/-! ## C7: tier lower bounds — the age table is strict below 180, 30 and 7 -/

def agedPair : DexPair := { zeroPair with pairCreatedAt := some dayMs }

def ms30 : ℤ := dayMs + 30 * dayMs

def ms7 : ℤ := dayMs + 7 * dayMs

/-- C7 counterexample: a pair aged exactly 30 days scores 5 (not the
claimed 8), and one aged exactly 7 days scores 3 (not 5): the age
tiers `>30` and `>7` are strict, not only the top `>180` tier. -/
theorem age_tier_strict_counterexample :
    getTokenAgeDays ms30 agedPair = 30
    ∧ (scoreAge ms30 agedPair).score = 5
    ∧ ¬(scoreAge ms30 agedPair).score = 8
    ∧ getTokenAgeDays ms7 agedPair = 7
    ∧ (scoreAge ms7 agedPair).score = 3
    ∧ ¬(scoreAge ms7 agedPair).score = 5 := by
  have h30 : getTokenAgeDays ms30 agedPair = 30 := by
    simp only [getTokenAgeDays, agedPair, zeroPair, ms30, dayMs]
    norm_num
  have h7 : getTokenAgeDays ms7 agedPair = 7 := by
    simp only [getTokenAgeDays, agedPair, zeroPair, ms7, dayMs]
    norm_num
  refine ⟨h30, ?_, ?_, h7, ?_, ?_⟩ <;> simp only [scoreAge, h30, h7] <;> norm_num

/-- C7 (amended): every non-age tier table has inclusive (≥) lower
bounds, while ALL comparative age tiers use strict >: >180→10,
>30→8, >7→5, then ≥0→3; so day 181 earns 10 but day 180 earns 8,
day 31 earns 8 but day 30 earns 5, day 8 earns 5 but day 7 earns 3. -/
theorem tier_lower_bounds (nowMs : ℤ) (pair : DexPair) :
    (liqUsd pair = 500000 → (scoreLiquidity pair).score = 25)
    ∧ (liqUsd pair = 200000 → (scoreLiquidity pair).score = 20)
    ∧ (liqUsd pair = 100000 → (scoreLiquidity pair).score = 15)
    ∧ (liqUsd pair = 50000 → (scoreLiquidity pair).score = 10)
    ∧ (mcapVal pair = 10000000 → (scoreMarketCap pair).score = 20)
    ∧ (mcapVal pair = 1000000 → (scoreMarketCap pair).score = 16)
    ∧ (mcapVal pair = 500000 → (scoreMarketCap pair).score = 12)
    ∧ (mcapVal pair = 100000 → (scoreMarketCap pair).score = 8)
    ∧ (pair.volume.h24 = 1000000 → (scoreVolume pair).score = 20)
    ∧ (pair.volume.h24 = 500000 → (scoreVolume pair).score = 16)
    ∧ (pair.volume.h24 = 100000 → (scoreVolume pair).score = 12)
    ∧ (pair.volume.h24 = 50000 → (scoreVolume pair).score = 8)
    ∧ (countSocials pair = 4 → (scoreSocial pair).score = 15)
    ∧ (countSocials pair = 2 → (scoreSocial pair).score = 10)
    ∧ (countSocials pair = 1 → (scoreSocial pair).score = 6)
    ∧ (getTokenAgeDays nowMs pair = 181 → (scoreAge nowMs pair).score = 10)
    ∧ (getTokenAgeDays nowMs pair = 180 → (scoreAge nowMs pair).score = 8)
    ∧ (getTokenAgeDays nowMs pair = 31 → (scoreAge nowMs pair).score = 8)
    ∧ (getTokenAgeDays nowMs pair = 30 → (scoreAge nowMs pair).score = 5)
    ∧ (getTokenAgeDays nowMs pair = 8 → (scoreAge nowMs pair).score = 5)
    ∧ (getTokenAgeDays nowMs pair = 7 → (scoreAge nowMs pair).score = 3)
    ∧ (getTokenAgeDays nowMs pair = 0 → (scoreAge nowMs pair).score = 3) := by
  refine ⟨?_, ?_, ?_, ?_, ?_, ?_, ?_, ?_, ?_, ?_, ?_, ?_, ?_, ?_, ?_, ?_, ?_,
    ?_, ?_, ?_, ?_, ?_⟩ <;>
    (intro h;
     simp only [scoreLiquidity, scoreMarketCap, scoreVolume, scoreSocial, scoreAge, h];
     norm_num)

def mcapBoundaryPair : DexPair := { zeroPair with marketCap := some 10000000 }

def volBoundaryPair : DexPair := { zeroPair with volume := ⟨1000000, 0, 0, 0⟩ }

def social4Pair : DexPair :=
  { zeroPair with
    info := some ⟨none, none,
      some [⟨"twitter", "https://x.example"⟩, ⟨"telegram", "https://t.example"⟩,
            ⟨"discord", "https://d.example"⟩, ⟨"youtube", "https://y.example"⟩]⟩ }

def ms180 : ℤ := dayMs + 180 * dayMs

def ms181 : ℤ := dayMs + 181 * dayMs

/-- Spot check of `tier_lower_bounds` at concrete boundary snapshots. -/
theorem tier_lower_bounds_spot :
    (scoreLiquidity liqBoundaryPair).score = 25
    ∧ (scoreMarketCap mcapBoundaryPair).score = 20
    ∧ (scoreVolume volBoundaryPair).score = 20
    ∧ (scoreSocial social4Pair).score = 15
    ∧ (scoreAge ms181 agedPair).score = 10
    ∧ (scoreAge ms180 agedPair).score = 8 :=
  ⟨(tier_lower_bounds 0 liqBoundaryPair).1 rfl,
   (tier_lower_bounds 0 mcapBoundaryPair).2.2.2.2.1 rfl,
   (tier_lower_bounds 0 volBoundaryPair).2.2.2.2.2.2.2.2.1 rfl,
   (tier_lower_bounds 0 social4Pair).2.2.2.2.2.2.2.2.2.2.2.2.1 rfl,
   (tier_lower_bounds ms181 agedPair).2.2.2.2.2.2.2.2.2.2.2.2.2.2.2.1
     (by simp only [getTokenAgeDays, agedPair, zeroPair, ms181, dayMs]; norm_num),
   (tier_lower_bounds ms180 agedPair).2.2.2.2.2.2.2.2.2.2.2.2.2.2.2.2.1
     (by simp only [getTokenAgeDays, agedPair, zeroPair, ms180, dayMs]; norm_num)⟩

/-! ## C8: per-factor monotonicity in the metric each scorer reads -/

/-- C8: increasing the single metric a factor scorer reads (liquidity
USD, resolved market cap, 24h volume, social-platform count, or age
in days) never decreases that factor's awarded score. -/
theorem factor_monotonicity (nowMs : ℤ) (p q : DexPair) :
    (liqUsd p ≤ liqUsd q → (scoreLiquidity p).score ≤ (scoreLiquidity q).score)
    ∧ (mcapVal p ≤ mcapVal q → (scoreMarketCap p).score ≤ (scoreMarketCap q).score)
    ∧ (p.volume.h24 ≤ q.volume.h24 → (scoreVolume p).score ≤ (scoreVolume q).score)
    ∧ (countSocials p ≤ countSocials q → (scoreSocial p).score ≤ (scoreSocial q).score)
    ∧ (getTokenAgeDays nowMs p ≤ getTokenAgeDays nowMs q →
        (scoreAge nowMs p).score ≤ (scoreAge nowMs q).score) := by
  refine ⟨?_, ?_, ?_, ?_, ?_⟩ <;> intro h
  · simp only [scoreLiquidity]
    split_ifs <;> simp_all <;> linarith
  · simp only [scoreMarketCap]
    split_ifs <;> simp_all <;> linarith
  · simp only [scoreVolume]
    split_ifs <;> simp_all <;> linarith
  · simp only [scoreSocial]
    split_ifs <;> simp_all <;> omega
  · simp only [scoreAge]
    split_ifs <;> simp_all <;> omega

/-- Spot check of `factor_monotonicity` between the zero snapshot and
the maximal snapshot. -/
theorem factor_monotonicity_spot :
    (scoreLiquidity zeroPair).score ≤ (scoreLiquidity richPair).score
    ∧ (scoreVolume zeroPair).score ≤ (scoreVolume richPair).score
    ∧ (scoreSocial zeroPair).score ≤ (scoreSocial richPair).score :=
  ⟨(factor_monotonicity 0 zeroPair richPair).1 (by norm_num [liqUsd, zeroPair, richPair]),
   (factor_monotonicity 0 zeroPair richPair).2.2.1 (by norm_num [zeroPair, richPair]),
   (factor_monotonicity 0 zeroPair richPair).2.2.2.1
     (by norm_num [countSocials, zeroPair, richPair, richExtra])⟩

/-! ## C9: the scorer reads the wall clock through the age factor -/

def t8Ms : ℤ := dayMs + 8 * dayMs

theorem agedPair_liquidity_score : (scoreLiquidity agedPair).score = 5 := by
  norm_num [scoreLiquidity, liqUsd, agedPair, zeroPair]

theorem agedPair_marketCap_score : (scoreMarketCap agedPair).score = 4 := by
  norm_num [scoreMarketCap, mcapVal, agedPair, zeroPair]

theorem agedPair_volume_score : (scoreVolume agedPair).score = 4 := by
  norm_num [scoreVolume, agedPair, zeroPair]

theorem agedPair_social_score : (scoreSocial agedPair).score = 2 := by
  norm_num [scoreSocial, countSocials, agedPair, zeroPair]

theorem agedPair_team_score : (scoreTeam agedPair).score = 2 := by
  norm_num [scoreTeam, agedPair, zeroPair]

theorem agedPair_catalysts : detectCatalysts agedPair = [] := by
  norm_num [detectCatalysts, countSocials, agedPair, zeroPair, emptyTxns]

theorem agedPair_age8 : getTokenAgeDays t8Ms agedPair = 8 := by
  simp only [getTokenAgeDays, agedPair, zeroPair, t8Ms, dayMs]
  norm_num

theorem agedPair_age200 : getTokenAgeDays nowB agedPair = 200 := by
  simp only [getTokenAgeDays, agedPair, zeroPair, nowB, dayMs]
  norm_num

/-- C9 counterexample: scoring the very same snapshot at two different
clock instants (the pair being 8 days old at the first and 200 days
old at the second) yields different totalScores (22 vs 27): beyond
scoredAt, the age factor's score and totalScore depend on the clock,
not only on the snapshot. -/
theorem scoreToken_clock_dependent_counterexample :
    (scoreToken t8Ms agedPair).totalScore = 22
    ∧ (scoreToken nowB agedPair).totalScore = 27
    ∧ (scoreToken t8Ms agedPair).totalScore ≠ (scoreToken nowB agedPair).totalScore := by
  have a8 : (scoreAge t8Ms agedPair).score = 5 := by
    simp only [scoreAge, agedPair_age8]
    norm_num
  have a200 : (scoreAge nowB agedPair).score = 10 := by
    simp only [scoreAge, agedPair_age200]
    norm_num
  have e1 : (scoreToken t8Ms agedPair).totalScore = 22 := by
    rw [scoreToken_totalScore_eq, agedPair_liquidity_score, agedPair_marketCap_score,
      agedPair_volume_score, agedPair_social_score, a8, agedPair_team_score,
      agedPair_catalysts]
    decide
  have e2 : (scoreToken nowB agedPair).totalScore = 27 := by
    rw [scoreToken_totalScore_eq, agedPair_liquidity_score, agedPair_marketCap_score,
      agedPair_volume_score, agedPair_social_score, a200, agedPair_team_score,
      agedPair_catalysts]
    decide
  exact ⟨e1, e2, by rw [e1, e2]; decide⟩

/-- C9 (amended): apart from the explicit scoredAt field, the scorer
is deterministic in the snapshot AND the observed pair age: two
invocations whose clocks compute the same age-in-days yield
TokenScores that differ at most in scoredAt. (The age factor reads
the wall clock, so identical snapshots scored across an age-day
boundary can differ — see the counterexample.) -/
theorem scoreToken_deterministic_modulo_age (t1 t2 : ℤ) (pair : DexPair)
    (h : getTokenAgeDays t1 pair = getTokenAgeDays t2 pair) :
    (scoreToken t1 pair).scoredAt = t1
    ∧ (scoreToken t2 pair).scoredAt = t2
    ∧ scoreToken t1 pair = { scoreToken t2 pair with scoredAt := t1 } := by
  refine ⟨rfl, rfl, ?_⟩
  have hage : scoreAge t1 pair = scoreAge t2 pair := by
    simp only [scoreAge, h]
  simp only [scoreToken, hage]

/-- Spot check of `scoreToken_deterministic_modulo_age`: two clock
readings 5 seconds apart within the same age day give the same score
apart from scoredAt. -/
theorem scoreToken_deterministic_modulo_age_spot :
    scoreToken (2 * dayMs) agedPair
      = { scoreToken (2 * dayMs + 5000) agedPair with scoredAt := 2 * dayMs } :=
  (scoreToken_deterministic_modulo_age (2 * dayMs) (2 * dayMs + 5000) agedPair
    (by
      have a1 : getTokenAgeDays (2 * dayMs) agedPair = 1 := by
        simp only [getTokenAgeDays, agedPair, zeroPair, dayMs]
        norm_num
      have a2 : getTokenAgeDays (2 * dayMs + 5000) agedPair = 1 := by
        simp only [getTokenAgeDays, agedPair, zeroPair, dayMs]
        norm_num
      rw [a1, a2])).2.2

/-! ## C10: the forensics flag list is never empty -/

/-- Behaviour of the final WALLET_VERIFIED fallback append, for any
rule-emitted prefix that itself never contains WALLET_VERIFIED. -/
theorem verified_append_spec (pre : List WalletFlagDetail)
    (hpre : ∀ f ∈ pre, f.flag ≠ WalletFlag.WALLET_VERIFIED) :
    (pre ++ (if pre = [] ∨ pre.all (fun f => f.impact ≥ 0) then
        [({ flag := .WALLET_VERIFIED, impact := 3
            reason := "No negative signals detected" } : WalletFlagDetail)]
      else [])) ≠ []
    ∧ ((pre ++ (if pre = [] ∨ pre.all (fun f => f.impact ≥ 0) then
        [({ flag := .WALLET_VERIFIED, impact := 3
            reason := "No negative signals detected" } : WalletFlagDetail)]
      else [])).all (fun f => f.impact ≥ 0) = true ↔
      ({ flag := .WALLET_VERIFIED, impact := 3
         reason := "No negative signals detected" } : WalletFlagDetail)
        ∈ pre ++ (if pre = [] ∨ pre.all (fun f => f.impact ≥ 0) then
            [({ flag := .WALLET_VERIFIED, impact := 3
                reason := "No negative signals detected" } : WalletFlagDetail)]
          else [])) := by
  by_cases hc : pre = [] ∨ pre.all (fun f => f.impact ≥ 0) = true
  · rw [if_pos hc]
    refine ⟨by simp, ?_, ?_⟩
    · intro _
      exact List.mem_append.2 (Or.inr (List.mem_singleton.2 rfl))
    · intro _
      rw [List.all_append]
      rcases hc with h | h
      · subst h
        simp
      · rw [h]
        simp
  · rw [if_neg hc]
    push_neg at hc
    refine ⟨by simpa using hc.1, ?_, ?_⟩
    · intro hall
      simp only [List.all_append] at hall
      exact absurd (by simpa using hall) hc.2
    · intro hmem
      rcases List.mem_append.1 hmem with hmem | hmem
      · exact absurd rfl (hpre _ hmem)
      · simp at hmem

/-- C10: for every input the emitted flag list is non-empty; the
WALLET_VERIFIED(+3) fallback is present exactly when every emitted
flag has non-negative impact (it is appended after the fired rules);
and when no rule fires at all the result is exactly
[WALLET_VERIFIED(+3)]. -/
theorem generateFlags_nonempty
    (mixers institutional : List String) (address fundedBy : String)
    (nativeBalance : ℚ) (tokenCount : ℕ) (nowMs : ℤ) (txs : List HeliusTx) :
    generateFlags mixers institutional address fundedBy nativeBalance tokenCount nowMs txs ≠ []
    ∧ ((generateFlags mixers institutional address fundedBy nativeBalance tokenCount
          nowMs txs).all (fun f => f.impact ≥ 0) = true ↔
        ({ flag := .WALLET_VERIFIED, impact := 3
           reason := "No negative signals detected" } : WalletFlagDetail)
          ∈ generateFlags mixers institutional address fundedBy nativeBalance tokenCount
              nowMs txs)
    ∧ (mixers.contains fundedBy = false →
       institutional.contains fundedBy = false →
       institutional.contains address = false →
       countTokenCreates txs ≤ 5 →
       (analyzeDumpPattern nowMs txs).isDumping = false →
       ¬(nativeBalance > 1 ∧ tokenCount > 0) →
       generateFlags mixers institutional address fundedBy nativeBalance tokenCount
           nowMs txs =
         [{ flag := .WALLET_VERIFIED, impact := 3
            reason := "No negative signals detected" }]) := by
  by_cases hm : mixers.contains fundedBy = true
  · have hf : generateFlags mixers institutional address fundedBy nativeBalance
        tokenCount nowMs txs =
        [{ flag := .MIXER_REJECT, impact := -100
           reason := "Funded by known mixer: " ++ fundedBy.take 8 ++ "..." }] := by
      simp only [generateFlags, hm]
      simp
    rw [hf]
    refine ⟨by simp, ?_, ?_⟩
    · constructor
      · intro hall
        simp at hall
      · intro hmem
        simp at hmem
    · intro h1
      rw [h1] at hm
      simp at hm
  · have hm' : mixers.contains fundedBy = false := by simpa using hm
    simp only [generateFlags, hm', Bool.false_eq_true, if_false]
    refine ⟨(verified_append_spec _ ?_).1, (verified_append_spec _ ?_).2, ?_⟩
    · intro f hfm
      simp only [List.mem_append, mem_ite_nil, List.mem_singleton] at hfm
      rcases hfm with ((⟨_, rfl⟩ | ⟨_, rfl⟩) | ⟨_, rfl⟩) | ⟨_, rfl⟩ <;> simp
    · intro f hfm
      simp only [List.mem_append, mem_ite_nil, List.mem_singleton] at hfm
      rcases hfm with ((⟨_, rfl⟩ | ⟨_, rfl⟩) | ⟨_, rfl⟩) | ⟨_, rfl⟩ <;> simp
    · intro _ h2 h3 h4 h5 h6
      have c1 : ¬(institutional.contains fundedBy = true
          ∨ institutional.contains address = true) := by
        rw [h2, h3]
        simp
      have c2 : ¬(countTokenCreates txs > 5) := by omega
      have c3 : ¬((analyzeDumpPattern nowMs txs).isDumping = true) := by
        simp [h5]
      have c4 : ¬(nativeBalance > 1 ∧ tokenCount > 0
          ∧ (analyzeDumpPattern nowMs txs).isDumping = false) := by
        rintro ⟨a, b, _⟩
        exact h6 ⟨a, b⟩
      rw [if_neg c1, if_neg c2, if_neg c3, if_neg c4]
      simp

/-- Spot check of `generateFlags_nonempty` on a wallet with no
activity at all: the result is exactly the WALLET_VERIFIED fallback. -/
theorem generateFlags_nonempty_spot :
    generateFlags [] [] "DEPLOYER" "FUNDER" 0 0 0 [] ≠ []
    ∧ generateFlags [] [] "DEPLOYER" "FUNDER" 0 0 0 [] =
      [{ flag := .WALLET_VERIFIED, impact := 3
         reason := "No negative signals detected" }] :=
  ⟨(generateFlags_nonempty [] [] "DEPLOYER" "FUNDER" 0 0 0 []).1,
   (generateFlags_nonempty [] [] "DEPLOYER" "FUNDER" 0 0 0 []).2.2 rfl rfl rfl
     (by decide)
     (by
       have hX : ((0 : ℤ) : ℚ) / 1000 - 7 * 24 * 60 * 60 = -604800 := by norm_num
       simp only [analyzeDumpPattern, hX]
       decide)
     (by norm_num)⟩

end SolcexBD
